import Mathlib

/-!
Verification of the wterm WiFi connection manager core (src/core/connection.c,
src/core/error_handler.c, src/core/network_scanner.c, src/utils/input_sanitizer.c,
src/utils/iw_helper.c, src/utils/string_utils.c).

C strings are modelled as `List Char` (the bytes up to the terminating NUL);
a nullable `const char*` argument is modelled as `Option (List Char)`.
External command output (popen streams, exec results, the cancellation flag)
is modelled as an explicit environment record passed to each function, so the
functions are pure and every observation the C code makes is a field read.
-/

/-- A C string: the characters before the terminating NUL byte. -/
abbrev CStr := List Char

/-- C `isspace` in the default locale: space, \t, \n, \v, \f, \r. -/
def isSpaceC (c : Char) : Bool :=
  c = ' ' || c = Char.ofNat 9 || c = Char.ofNat 10 ||
  c = Char.ofNat 11 || c = Char.ofNat 12 || c = Char.ofNat 13

/-- C `tolower` in the default locale: maps A-Z to a-z, leaves the rest. -/
def toLowerC (c : Char) : Char :=
  if 'A' ≤ c ∧ c ≤ 'Z' then Char.ofNat (c.toNat + 32) else c

/-- string_utils.c `is_string_empty` on a non-null string:
true iff every character is whitespace. -/
def is_string_empty : CStr → Bool
  | [] => true
  | c :: rest => if isSpaceC c then is_string_empty rest else false

/-- string_utils.c `trim_trailing_whitespace`: strips trailing whitespace. -/
def trim_trailing_whitespace (s : CStr) : CStr :=
  (s.reverse.dropWhile isSpaceC).reverse

/-- C `strstr hay needle ≠ NULL`: needle occurs as a contiguous substring. -/
def hasSubstr : CStr → CStr → Bool
  | [], needle => needle.isEmpty
  | c :: t, needle => needle.isPrefixOf (c :: t) || hasSubstr t needle

/-- string_utils.c `safe_string_copy` into a buffer of `destSize` bytes:
the stored content is the source truncated to `destSize - 1` characters. -/
def safe_string_copy (src : CStr) (destSize : Nat) : CStr :=
  src.take (destSize - 1)

/-- input_sanitizer.c `validate_ssid`: non-null, 1..32 bytes, no NUL bytes. -/
def validate_ssid : Option CStr → Bool
  | none => false
  | some s =>
    let len := s.length
    if len = 0 ∨ len > 32 then false
    else if s.any (fun c => c = Char.ofNat 0) then false
    else true

/-- connection.c `validate_password`: null password is rejected; null/blank
security means an open network (accepted); a security string containing
"WPA" requires length 8..63; otherwise one containing "WEP" requires length
5, 13, 16 or 29; any other security accepts any non-empty password. -/
def validate_password (password : Option CStr) (security : Option CStr) : Bool :=
  match password with
  | none => false
  | some p =>
    let len := p.length
    match security with
    | none => true
    | some s =>
      if is_string_empty s then true
      else if hasSubstr s "WPA".data then decide (8 ≤ len ∧ len ≤ 63)
      else if hasSubstr s "WEP".data then decide (len = 5 ∨ len = 13 ∨ len = 16 ∨ len = 29)
      else decide (len > 0)

/-- connection.c `network_requires_password`: null/blank security is open;
otherwise a password is required iff the security string mentions WPA, WEP
or Enterprise. -/
def network_requires_password (security : Option CStr) : Bool :=
  match security with
  | none => false
  | some s =>
    if is_string_empty s then false
    else hasSubstr s "WPA".data || hasSubstr s "WEP".data ||
         hasSubstr s "Enterprise".data

/-- common.h `wterm_result_t` return codes. -/
inductive wterm_result_t where
  | WTERM_SUCCESS
  | WTERM_ERROR_GENERAL
  | WTERM_ERROR_NETWORK
  | WTERM_ERROR_PARSE
  | WTERM_ERROR_MEMORY
  | WTERM_ERROR_INVALID_INPUT
  | WTERM_ERROR_HOTSPOT
  | WTERM_ERROR_INTERFACE
  | WTERM_ERROR_PERMISSION
  | WTERM_ERROR_CANCELLED
  deriving DecidableEq, Repr

/-- error_handler.h `connection_error_t` error kinds. -/
inductive connection_error_t where
  | CONN_ERROR_NONE
  | CONN_ERROR_AUTH_FAILED
  | CONN_ERROR_NETWORK_UNAVAILABLE
  | CONN_ERROR_TIMEOUT
  | CONN_ERROR_WIFI_DISABLED
  | CONN_ERROR_PERMISSION_DENIED
  | CONN_ERROR_DHCP_TIMEOUT
  | CONN_ERROR_DNS_FAILURE
  | CONN_ERROR_CAPTIVE_PORTAL
  | CONN_ERROR_MAC_FILTERING
  | CONN_ERROR_UNSUPPORTED_SECURITY
  | CONN_ERROR_NETWORKMANAGER_NOT_RUNNING
  | CONN_ERROR_UNKNOWN
  deriving DecidableEq, Repr

/-- error_handler.c `parse_nmcli_error`: lowercases a copy of the first 511
bytes of the output and classifies it by the first matching phrase group. -/
def parse_nmcli_error (errorOutput : Option CStr) : connection_error_t :=
  match errorOutput with
  | none => .CONN_ERROR_UNKNOWN
  | some s =>
    let lower := (safe_string_copy s 512).map toLowerC
    if hasSubstr lower "authentication".data || hasSubstr lower "invalid key".data ||
       hasSubstr lower "wrong password".data || hasSubstr lower "psk".data then
      .CONN_ERROR_AUTH_FAILED
    else if hasSubstr lower "no network".data || hasSubstr lower "not found".data ||
       hasSubstr lower "unavailable".data then
      .CONN_ERROR_NETWORK_UNAVAILABLE
    else if hasSubstr lower "timeout".data || hasSubstr lower "timed out".data then
      .CONN_ERROR_TIMEOUT
    else if hasSubstr lower "permission denied".data || hasSubstr lower "not authorized".data then
      .CONN_ERROR_PERMISSION_DENIED
    else if hasSubstr lower "wifi".data &&
       (hasSubstr lower "disabled".data || hasSubstr lower "off".data) then
      .CONN_ERROR_WIFI_DISABLED
    else if hasSubstr lower "networkmanager".data || hasSubstr lower "nm-".data then
      .CONN_ERROR_NETWORKMANAGER_NOT_RUNNING
    else if hasSubstr lower "dhcp".data || hasSubstr lower "ip address".data then
      .CONN_ERROR_DHCP_TIMEOUT
    else
      .CONN_ERROR_UNKNOWN

/-- The phrases whose presence (lowercased) triggers a non-Unknown
classification in `parse_nmcli_error`.  "disabled" and "off" are omitted:
they only trigger together with "wifi". -/
def nmcliErrorPhrases : List CStr :=
  ["authentication".data, "invalid key".data, "wrong password".data, "psk".data,
   "no network".data, "not found".data, "unavailable".data,
   "timeout".data, "timed out".data,
   "permission denied".data, "not authorized".data, "wifi".data,
   "networkmanager".data, "nm-".data, "dhcp".data, "ip address".data]

/-- C `strchr`: index of the first occurrence of a character, if any. -/
def strchrIdx : CStr → Char → Option Nat
  | [], _ => none
  | c :: t, ch => if c = ch then some 0 else (strchrIdx t ch).map (· + 1)

/-- common.h `network_info_t` (string fields only, as the parser fills them). -/
structure network_info_t where
  ssid : CStr
  security : CStr
  signal : CStr
  deriving DecidableEq, Repr

/-- network_scanner.c `parse_network_line`: splits "SSID:SECURITY:SIGNAL" at
the first two colons, truncates each field to its buffer (33/17/33 bytes),
substitutes "Open" for an empty security field, and trims trailing
whitespace.  The C also rejects a null output struct; only the buffer
argument is modelled as nullable. -/
def parse_network_line (buffer : Option CStr) : Except wterm_result_t network_info_t :=
  match buffer with
  | none => .error .WTERM_ERROR_INVALID_INPUT
  | some buf =>
    match strchrIdx buf ':' with
    | none => .error .WTERM_ERROR_PARSE
    | some i1 =>
      let afterFirst := buf.drop (i1 + 1)
      match strchrIdx afterFirst ':' with
      | none => .error .WTERM_ERROR_PARSE
      | some i2 =>
        let ssidLen := if i1 ≥ 33 then 32 else i1
        let ssid := buf.take ssidLen
        let security :=
          if i2 > 0 then afterFirst.take (if i2 ≥ 17 then 16 else i2)
          else "Open".data
        let signal := safe_string_copy (afterFirst.drop (i2 + 1)) 33
        .ok { ssid := trim_trailing_whitespace ssid,
              security := trim_trailing_whitespace security,
              signal := trim_trailing_whitespace signal }

/-- The single-quote character. -/
def quoteC : Char := Char.ofNat 39

/-- The backslash character. -/
def backslashC : Char := Char.ofNat 92

/-- input_sanitizer.c `shell_escape`, inner copy loop: walks the input with
the current write position `pos` in a buffer of `outputSize` bytes, emitting
the 4-byte sequence quote-backslash-quote-quote for each embedded single
quote, and fails (returns none, writing nothing visible) on any bound check;
on input exhaustion it appends the closing quote (the NUL terminator is
implicit in the model). -/
def shell_escape_loop (outputSize : Nat) : CStr → CStr → Nat → Option CStr
  | [], acc, pos =>
    if pos ≥ outputSize - 1 then none else some (acc ++ [quoteC])
  | c :: rest, acc, pos =>
    if c = quoteC then
      if pos + 4 ≥ outputSize - 1 then none
      else shell_escape_loop outputSize rest
        (acc ++ [quoteC, backslashC, quoteC, quoteC]) (pos + 4)
    else
      if pos ≥ outputSize - 1 then none
      else shell_escape_loop outputSize rest (acc ++ [c]) (pos + 1)

/-- input_sanitizer.c `shell_escape`: wraps the input in single quotes,
escaping embedded single quotes, into a buffer of `outputSize` bytes;
returns none exactly when the C function returns false. -/
def shell_escape (input : Option CStr) (outputSize : Nat) : Option CStr :=
  match input with
  | none => none
  | some s =>
    if outputSize < 3 then none
    else if (0 : Nat) ≥ outputSize - 1 then none
    else shell_escape_loop outputSize s [quoteC] 1

/-- The escape of one character, following the spec text of the claim:
a single quote becomes the sequence quote-backslash-quote-quote. -/
def escChar (c : Char) : CStr :=
  if c = quoteC then [quoteC, backslashC, quoteC, quoteC] else [c]

/-- Reference form from the claim's words: the input wrapped in single
quotes with every embedded single quote replaced by its escape sequence. -/
def shellEscapeSpec (s : CStr) : CStr :=
  quoteC :: (s.map escChar).flatten ++ [quoteC]

/-- The number of output bytes the escape loop writes for the input body
(4 per embedded single quote, 1 per other byte). -/
def escCost (s : CStr) : Nat :=
  (s.map (fun c => if c = quoteC then 4 else 1)).sum

/-- connection.c `connection_status_t`, with the kernel-view fields the
implementation fills (`kernel_associated`, `kernel_ssid`, `is_zombie`).
`connection_uuid` is never written by the code and is omitted. -/
structure connection_status_t where
  is_connected : Bool
  connected_ssid : CStr
  connection_name : CStr
  ip_address : CStr
  kernel_associated : Bool
  kernel_ssid : CStr
  is_zombie : Bool
  deriving DecidableEq, Repr

/-- The zero-initialised `connection_status_t` (C `= {0}`). -/
def emptyStatus : connection_status_t :=
  ⟨false, [], [], [], false, [], false⟩

/-- Environment of one iw_helper.c `iw_check_association` call: whether `iw`
exists, whether popen succeeded, and the lines of `iw dev <if> link`. -/
structure IwEnv where
  available : Bool
  popenOk : Bool
  lines : List CStr
  deriving DecidableEq, Repr

/-- iw_helper.c `iw_check_association` (with valid pointer arguments, as at
every call site): fails if `iw` is missing or popen fails, leaving the flag
false; otherwise the flag is whether some output line contains
"Connected to". -/
def iw_check_association (env : IwEnv) : wterm_result_t × Bool :=
  if !env.available then (.WTERM_ERROR_GENERAL, false)
  else if !env.popenOk then (.WTERM_ERROR_NETWORK, false)
  else (.WTERM_SUCCESS, env.lines.any (fun l => hasSubstr l "Connected to".data))

/-- connection.c: parse one newline-stripped "NAME:TYPE:DEVICE" line into
(NAME, TYPE) at the first two colons, as the status loops do with strchr. -/
def parseActiveLine (line : CStr) : Option (CStr × CStr) :=
  match strchrIdx line ':' with
  | none => none
  | some i1 =>
    let rest := line.drop (i1 + 1)
    match strchrIdx rest ':' with
    | none => none
    | some i2 => some (line.take i1, rest.take i2)

/-- connection.c: scan of `nmcli ... connection show --active` output: the
first parsable line of type 802-11-wireless yields its NAME (copied into a
33-byte buffer). -/
def findActiveWifi : List CStr → Option CStr
  | [] => none
  | line :: rest =>
    match parseActiveLine line with
    | none => findActiveWifi rest
    | some (name, ty) =>
      if ty = "802-11-wireless".data then some (safe_string_copy name 33)
      else findActiveWifi rest

/-- connection.c: scan of `nmcli -t -f ACTIVE,SSID device wifi list` output:
the first line starting "yes:" yields the SSID after it. -/
def findActiveSsid : List CStr → Option CStr
  | [] => none
  | line :: rest =>
    if List.isPrefixOf "yes:".data line then some (safe_string_copy (line.drop 4) 33)
    else findActiveSsid rest

/-- C `strrchr`: index of the last occurrence of a character, if any. -/
def strrchrIdx (s : CStr) (ch : Char) : Option Nat :=
  match strchrIdx s.reverse ch with
  | none => none
  | some r => some (s.length - 1 - r)

/-- connection.c: extract the IP address from the first line of the
`IP4.ADDRESS` query: the text after the last colon if non-empty, else the
whole line; copied into a 16-byte buffer. -/
def parseIpLine (line : CStr) : CStr :=
  match strrchrIdx line ':' with
  | some k =>
    let tail := line.drop (k + 1)
    if tail.length > 0 then safe_string_copy tail 16
    else if line.length > 0 then safe_string_copy line 16
    else []
  | none => if line.length > 0 then safe_string_copy line 16 else []

/-- Environment of one connection.c `get_connection_status` call: results of
its external queries, in program order.  `none` on an outer Option models a
failed popen; `nmActive2`/`wifiList2`/`ipLine2` are the re-queries after a
zombie recovery; `recoverOk` is whether `recover_from_zombie_connection`
returned WTERM_SUCCESS (its nmcli exec results). -/
structure StatusEnv where
  nmActive : Option (List CStr)
  wifiList : Option (List CStr)
  ipLine : Option (Option CStr)
  iwAssoc : IwEnv
  iwSsid : Option CStr
  recoverOk : Bool
  nmActive2 : Option (List CStr)
  wifiList2 : Option (List CStr)
  ipLine2 : Option (Option CStr)
  deriving DecidableEq, Repr

/-- The kernel-association boolean `get_connection_status` observes. -/
def obsKernelAssociated (env : StatusEnv) : Bool :=
  (iw_check_association env.iwAssoc).2

/-- The manager-connected boolean `get_connection_status` observes from the
active-connection query (false as well when the query stream fails). -/
def obsManagerConnected (env : StatusEnv) : Bool :=
  match env.nmActive with
  | none => false
  | some lines => (findActiveWifi lines).isSome

/-- connection.c `get_connection_status`, SSID read step: if connected, read
the active SSID from the wifi-list query (left unchanged on popen failure or
no "yes:" line). -/
def statusReadSsid (wifiList : Option (List CStr)) (s : connection_status_t) :
    connection_status_t :=
  if s.is_connected then
    match wifiList with
    | none => s
    | some wl =>
      match findActiveSsid wl with
      | some ss => { s with connected_ssid := ss }
      | none => s
  else s

/-- connection.c `get_connection_status`, IP read step: if connected, read
the IP address from the first line of the IP query (left unchanged on popen
or fgets failure). -/
def statusReadIp (ipLine : Option (Option CStr)) (s : connection_status_t) :
    connection_status_t :=
  if s.is_connected then
    match ipLine with
    | none => s
    | some none => s
    | some (some line) => { s with ip_address := parseIpLine line }
  else s

/-- connection.c `get_connection_status` up to the zombie check: manager
view, SSID, IP, kernel association, kernel SSID, and the derived
`is_zombie = kernel_associated && !is_connected`. -/
def statusBase (env : StatusEnv) (lines : List CStr) : connection_status_t :=
  let s1 := match findActiveWifi lines with
    | some name => { emptyStatus with is_connected := true, connection_name := name }
    | none => emptyStatus
  let s2 := statusReadSsid env.wifiList s1
  let s3 := statusReadIp env.ipLine s2
  let kassoc := obsKernelAssociated env
  let s4 := { s3 with kernel_associated := kassoc }
  let s5 :=
    if kassoc then
      match env.iwSsid with
      | some ks => { s4 with kernel_ssid := ks }
      | none => s4
    else s4
  { s5 with is_zombie := kassoc && !s5.is_connected }

/-- connection.c `get_connection_status`, post-recovery re-query: re-read the
active connection; if a wifi profile is now active, mark connected and clear
the zombie flag, then re-read SSID and IP. -/
def statusRecovered (env : StatusEnv) (s : connection_status_t) :
    connection_status_t :=
  let s7 := match env.nmActive2 with
    | none => s
    | some lines2 =>
      match findActiveWifi lines2 with
      | some name =>
        { s with connection_name := name, is_connected := true, is_zombie := false }
      | none => s
  statusReadIp env.ipLine2 (statusReadSsid env.wifiList2 s7)

/-- Result of `get_connection_status` plus whether the managed-toggle
recovery (`recover_from_zombie_connection`) was invoked. -/
structure StatusOutcome where
  status : connection_status_t
  recoverInvoked : Bool
  deriving DecidableEq, Repr

/-- connection.c `get_connection_status`: a failed active-connection query
returns the zero status at once; otherwise build the reconciled view and, on
a zombie, invoke the managed-toggle recovery and re-query on its success.
The return type carries no error alternative: the function always produces a
status value. -/
def get_connection_status (env : StatusEnv) : StatusOutcome :=
  match env.nmActive with
  | none => ⟨emptyStatus, false⟩
  | some lines =>
    let s := statusBase env lines
    if s.is_zombie then
      ⟨if env.recoverOk then statusRecovered env s else s, true⟩
    else ⟨s, false⟩

/-- Environment of one connection.c `cleanup_zombie_before_connect` call:
the three `iw_check_association` calls in order, the active-connection
query, and the cancellation flag at its five read points (A: before cleanup,
B: after the connection-down sleep, C: after the device-disconnect sleep,
D: after the unmanage sleep, E: after the manage sleep). -/
structure CleanupEnv where
  iface : Option CStr
  iw1 : IwEnv
  nmActive : Option (List CStr)
  cancelA : Bool
  cancelB : Bool
  cancelC : Bool
  iw2 : IwEnv
  cancelD : Bool
  cancelE : Bool
  iw3 : IwEnv
  deriving DecidableEq, Repr

/-- The kernel-association boolean `cleanup_zombie_before_connect` first
observes. -/
def cleanupKernelAssoc (env : CleanupEnv) : Bool :=
  (iw_check_association env.iw1).2

/-- The manager-connected boolean `cleanup_zombie_before_connect` observes
(false as well when the query stream fails). -/
def cleanupNmConnected (env : CleanupEnv) : Bool :=
  match env.nmActive with
  | none => false
  | some lines => (findActiveWifi lines).isSome

/-- Result of `cleanup_zombie_before_connect` plus whether the managed-toggle
(unmanage/manage) sequence was reached. -/
structure CleanupOutcome where
  result : wterm_result_t
  toggleInvoked : Bool
  deriving DecidableEq, Repr

/-- connection.c `cleanup_zombie_before_connect`: returns success at once if
the kernel is not associated, or if the kernel and manager agree (not a
zombie); otherwise disconnects (connection-level if a profile is active,
then device-level), and only if the kernel is still associated toggles the
interface's managed flag off and on; cancellation is checked at each sleep
point.  The exec results of the disconnect/toggle commands are ignored by
the C code. -/
def cleanup_zombie_before_connect (env : CleanupEnv) : CleanupOutcome :=
  let kernelAssociated := cleanupKernelAssoc env
  if !kernelAssociated then ⟨.WTERM_SUCCESS, false⟩
  else
    let nmName : Option CStr :=
      match env.nmActive with
      | none => none
      | some lines => findActiveWifi lines
    let isConnected := nmName.isSome
    let is_zombie := kernelAssociated && !isConnected
    if !is_zombie then ⟨.WTERM_SUCCESS, false⟩
    else if env.cancelA then ⟨.WTERM_ERROR_CANCELLED, false⟩
    else
      let afterStep1 : CleanupOutcome :=
        if env.cancelC then ⟨.WTERM_ERROR_CANCELLED, false⟩
        else
          let stillAssociated := (iw_check_association env.iw2).2
          if stillAssociated then
            if env.cancelD then ⟨.WTERM_ERROR_CANCELLED, true⟩
            else if env.cancelE then ⟨.WTERM_ERROR_CANCELLED, true⟩
            else
              let finalAssociated := (iw_check_association env.iw3).2
              ⟨if finalAssociated then .WTERM_ERROR_NETWORK else .WTERM_SUCCESS, true⟩
          else
            let finalAssociated := (iw_check_association env.iw3).2
            ⟨if finalAssociated then .WTERM_ERROR_NETWORK else .WTERM_SUCCESS, false⟩
      if isConnected ∧ nmName.getD [] ≠ [] then
        if env.cancelB then ⟨.WTERM_ERROR_CANCELLED, false⟩ else afterStep1
      else afterStep1

/-- connection.h `connection_result_t`. -/
structure connection_result_t where
  result : wterm_result_t
  error_type : connection_error_t
  error_message : CStr
  connected : Bool
  deriving DecidableEq, Repr

/-- The zero-initialised `connection_result_t` (C `= {0}`): note enum value
0 is WTERM_SUCCESS / CONN_ERROR_NONE. -/
def emptyResult : connection_result_t :=
  ⟨.WTERM_SUCCESS, .CONN_ERROR_NONE, [], false⟩

/-- One polling iteration's observations inside `execute_nmcli_connect`:
the cancellation flag at the top-of-iteration check, the environment of the
nested `get_connection_status` call, the `iw_get_connected_ssid` result
(none = failure), the `interface_has_ip_address` result (none = failure),
and the NAME,STATE profile query lines (none = popen failure). -/
structure PollObs where
  cancelled : Bool
  statusEnv : StatusEnv
  iwSsid : Option CStr
  hasIp : Option Bool
  profiles : Option (List CStr)
  deriving DecidableEq, Repr

/-- Environment of one connection.c `execute_nmcli_connect` call: whether
popen succeeded, the command's exit code and collected output, the
cancellation flag after the initial 2-second wait, and the per-iteration
observations of the polling loop. -/
structure ConnectEnv where
  popenOk : Bool
  exitCode : Int
  errorOutput : CStr
  preCancelled : Bool
  obs : Nat → PollObs

/-- connection.c `execute_nmcli_connect`, manager success condition at one
poll: the reconciler reports connected and the connected SSID equals the
target. -/
def nmSuccessAt (ssid : CStr) (o : PollObs) : Bool :=
  (get_connection_status o.statusEnv).status.is_connected &&
    decide ((get_connection_status o.statusEnv).status.connected_ssid = ssid)

/-- connection.c `execute_nmcli_connect`, kernel fallback success condition
at one poll: `iw` reports a non-empty SSID equal to the target and the
interface has an IP address. -/
def iwFallbackAt (ssid : CStr) (o : PollObs) : Bool :=
  match o.iwSsid with
  | none => false
  | some s => decide (0 < s.length) && decide (s = ssid) && decide (o.hasIp = some true)

/-- connection.c `execute_nmcli_connect`, NAME,STATE scan: the first line
whose NAME contains the SSID decides: state "activated" stops the scan
(keep waiting), a state containing "deactivat" reports failure; other
states continue the scan. -/
def profileFailedScan (ssid : CStr) : List CStr → Bool
  | [] => false
  | line :: rest =>
    match strchrIdx line ':' with
    | none => profileFailedScan ssid rest
    | some i =>
      let name := line.take i
      let state := line.drop (i + 1)
      if hasSubstr name ssid then
        if state = "activated".data then false
        else if hasSubstr state "deactivat".data then true
        else profileFailedScan ssid rest
      else profileFailedScan ssid rest

/-- Whether the profile-state query at one poll reports a failed/deactivated
connection for the SSID (false as well when the query stream fails). -/
def failedAt (ssid : CStr) (o : PollObs) : Bool :=
  match o.profiles with
  | none => false
  | some lines => profileFailedScan ssid lines

/-- The Cancelled result `execute_nmcli_connect` builds. -/
def cancelledResult : connection_result_t :=
  { emptyResult with
    result := .WTERM_ERROR_CANCELLED
    error_message := safe_string_copy "Connection cancelled by user".data 256 }

/-- The success result `execute_nmcli_connect` builds. -/
def successResult (ssid : CStr) : connection_result_t :=
  { emptyResult with
    result := .WTERM_SUCCESS
    connected := true
    error_message := ("Successfully connected to ".data ++ ssid).take 255 }

/-- The failed/deactivated (auth-class) result `execute_nmcli_connect`
builds. -/
def deactivatedResult (ssid : CStr) : connection_result_t :=
  { emptyResult with
    result := .WTERM_ERROR_NETWORK
    error_type := .CONN_ERROR_AUTH_FAILED
    error_message :=
      ("Connection to ".data ++ ssid ++ " failed or deactivated".data).take 255
    connected := false }

/-- The result `execute_nmcli_connect` builds when the polling loop
exhausts: the parsed nmcli error if the command failed with output, else a
timeout. -/
def connectTimeoutResult (ssid : CStr) (exitCode : Int) (errorOutput : CStr) :
    connection_result_t :=
  if exitCode ≠ 0 ∧ 0 < errorOutput.length then
    { emptyResult with
      result := .WTERM_ERROR_NETWORK
      error_type := parse_nmcli_error (some errorOutput)
      error_message := safe_string_copy errorOutput 256
      connected := false }
  else
    { emptyResult with
      result := .WTERM_ERROR_NETWORK
      error_type := .CONN_ERROR_TIMEOUT
      error_message := ("Connection to ".data ++ ssid ++
        " timed out (check signal strength, password, or AP availability)".data).take 255
      connected := false }

/-- connection.c `execute_nmcli_connect`, the 13-iteration polling loop
(index `i`, remaining iterations `fuel`): each iteration checks cancellation
first, then the manager success condition, then the kernel fallback, then
the profile-failure scan, and otherwise sleeps and continues. -/
def pollLoop (ssid : CStr) (env : ConnectEnv) : Nat → Nat → connection_result_t
  | _, 0 => connectTimeoutResult ssid env.exitCode env.errorOutput
  | i, fuel + 1 =>
    let o := env.obs i
    if o.cancelled then cancelledResult
    else if nmSuccessAt ssid o then successResult ssid
    else if iwFallbackAt ssid o then successResult ssid
    else if failedAt ssid o then deactivatedResult ssid
    else pollLoop ssid env (i + 1) fuel

/-- connection.c `execute_nmcli_connect`: popen failure is a network error;
cancellation during the initial wait returns Cancelled; otherwise the
13-iteration polling loop decides the outcome. -/
def execute_nmcli_connect (ssid : CStr) (env : ConnectEnv) : connection_result_t :=
  if !env.popenOk then
    { emptyResult with
      result := .WTERM_ERROR_NETWORK
      error_type := .CONN_ERROR_NETWORKMANAGER_NOT_RUNNING
      error_message := safe_string_copy "Failed to execute nmcli command".data 256 }
  else if env.preCancelled then cancelledResult
  else pollLoop ssid env 0 13

/-- A polling iteration at which the loop neither stops nor succeeds: not
cancelled, neither success condition holds, and no profile failure is
reported. -/
def pollNeutralAt (ssid : CStr) (env : ConnectEnv) (j : Nat) : Prop :=
  (env.obs j).cancelled = false ∧ nmSuccessAt ssid (env.obs j) = false ∧
  iwFallbackAt ssid (env.obs j) = false ∧ failedAt ssid (env.obs j) = false

instance (ssid : CStr) (env : ConnectEnv) (j : Nat) :
    Decidable (pollNeutralAt ssid env j) := by
  unfold pollNeutralAt
  infer_instance

/-- connection.c `connection_exists`, scan of NAME:TYPE lines: true iff some
line splits at its first colon into exactly the SSID and type
802-11-wireless. -/
def scanConnExists : List CStr → CStr → Bool
  | [], _ => false
  | line :: rest, ssid =>
    match strchrIdx line ':' with
    | none => scanConnExists rest ssid
    | some i =>
      let name := line.take i
      let ty := line.drop (i + 1)
      if ty = "802-11-wireless".data ∧ name = ssid then true
      else scanConnExists rest ssid

/-- connection.c `connection_exists`: null/blank SSID or a failed query
stream yields false; otherwise scan the saved-connection list. -/
def connection_exists (lines : Option (List CStr)) (ssid : Option CStr) : Bool :=
  match ssid with
  | none => false
  | some s =>
    if is_string_empty s then false
    else
      match lines with
      | none => false
      | some ls => scanConnExists ls s

/-- Environment of one connect entry-point call: the saved-connection query
lines, the pre-connect cleanup's environment, and the connect/poll
environment.  `init_connection_cancel` resets the shared flag, so the flags
inside are the values observed after that reset. -/
structure EntryEnv where
  connExists : Option (List CStr)
  cleanupEnv : CleanupEnv
  connectEnv : ConnectEnv

/-- An entry point's result together with the shell command string it passed
to `execute_nmcli_connect` (none when no connect command was issued). -/
structure EntryOutcome where
  result : connection_result_t
  issuedCmd : Option CStr

/-- An InvalidInput result with the given message. -/
def invalidResult (msg : CStr) : connection_result_t :=
  { emptyResult with
    result := .WTERM_ERROR_INVALID_INPUT
    error_message := safe_string_copy msg 256 }

/-- The network-error result built when the pre-connect cleanup fails. -/
def cleanupFailedResult : connection_result_t :=
  { emptyResult with
    result := .WTERM_ERROR_NETWORK
    error_message := safe_string_copy
      "Failed to cleanup zombie connection before connecting".data 256 }

/-- connection.c `connect_to_open_network`: validates the SSID (non-null,
not blank, `validate_ssid`), shell-escapes it into 256 bytes, runs the
zombie cleanup, then issues `nmcli connection up` for a saved profile or
`nmcli device wifi connect` otherwise (command built by snprintf into 512
bytes). -/
def connect_to_open_network (ssid : Option CStr) (env : EntryEnv) : EntryOutcome :=
  match ssid with
  | none => ⟨invalidResult "Invalid SSID provided".data, none⟩
  | some s =>
    if is_string_empty s then ⟨invalidResult "Invalid SSID provided".data, none⟩
    else if !validate_ssid (some s) then
      ⟨invalidResult "SSID contains invalid characters or length".data, none⟩
    else
      match shell_escape (some s) 256 with
      | none => ⟨invalidResult "SSID too long for shell escaping".data, none⟩
      | some esc =>
        if (cleanup_zombie_before_connect env.cleanupEnv).result ≠ .WTERM_SUCCESS then
          ⟨cleanupFailedResult, none⟩
        else if connection_exists env.connExists (some s) then
          ⟨execute_nmcli_connect s env.connectEnv,
           some (("nmcli connection up ".data ++ esc ++ " 2>&1".data).take 511)⟩
        else
          ⟨execute_nmcli_connect s env.connectEnv,
           some (("nmcli device wifi connect ".data ++ esc ++ " 2>&1".data).take 511)⟩

/-- connection.c `connect_to_secured_network`: as the open variant, but for
a new (unsaved) profile it additionally requires a non-blank password that
shell-escapes into 512 bytes, and issues
`nmcli device wifi connect <ssid> password <password>` (command built by
snprintf into 1024 bytes). -/
def connect_to_secured_network (ssid password : Option CStr) (env : EntryEnv) :
    EntryOutcome :=
  match ssid with
  | none => ⟨invalidResult "Invalid SSID provided".data, none⟩
  | some s =>
    if is_string_empty s then ⟨invalidResult "Invalid SSID provided".data, none⟩
    else if !validate_ssid (some s) then
      ⟨invalidResult "SSID contains invalid characters or length".data, none⟩
    else
      match shell_escape (some s) 256 with
      | none => ⟨invalidResult "SSID too long for shell escaping".data, none⟩
      | some esc =>
        if (cleanup_zombie_before_connect env.cleanupEnv).result ≠ .WTERM_SUCCESS then
          ⟨cleanupFailedResult, none⟩
        else if connection_exists env.connExists (some s) then
          ⟨execute_nmcli_connect s env.connectEnv,
           some (("nmcli connection up ".data ++ esc ++ " 2>&1".data).take 1023)⟩
        else
          match password with
          | none => ⟨invalidResult "Password required for secured network".data, none⟩
          | some p =>
            if is_string_empty p then
              ⟨invalidResult "Password required for secured network".data, none⟩
            else
              match shell_escape (some p) 512 with
              | none => ⟨invalidResult "Password too long for shell escaping".data, none⟩
              | some escp =>
                ⟨execute_nmcli_connect s env.connectEnv,
                 some (("nmcli device wifi connect ".data ++ esc ++ " password ".data ++
                        escp ++ " 2>&1".data).take 1023)⟩

/-- The SSID-validation rejection condition shared by both entry points:
null, blank (empty or all-whitespace), or failing `validate_ssid`. -/
def ssidRejected (ssid : Option CStr) : Bool :=
  match ssid with
  | none => true
  | some s => is_string_empty s || !validate_ssid (some s)

/-- The password rejection condition of `connect_to_secured_network` for a
new profile: null, blank, or not escapable into 512 bytes. -/
def passwordRejected (password : Option CStr) : Bool :=
  match password with
  | none => true
  | some p => is_string_empty p || !(shell_escape (some p) 512).isSome

/- ------------------------------------------------------------------ -/
/- Lemmas and theorems                                                 -/
/- ------------------------------------------------------------------ -/

lemma strchrIdx_append_first (a r : CStr) (ch : Char) (ha : ∀ c ∈ a, c ≠ ch) :
    strchrIdx (a ++ ch :: r) ch = some a.length := by
  induction a with
  | nil => simp [strchrIdx]
  | cons x t ih =>
    have hx : x ≠ ch := ha x (by simp)
    have ih' := ih (fun c hc => ha c (by simp [hc]))
    simp only [List.cons_append, strchrIdx, if_neg hx, List.length_cons]
    rw [show List.append t (ch :: r) = t ++ ch :: r from rfl, ih']
    rfl

lemma hasSubstr_iff_occurs (s n : CStr) : hasSubstr s n = true ↔ n <:+: s := by
  induction s with
  | nil =>
    simp only [hasSubstr, List.isEmpty_iff, List.infix_nil]
  | cons c t ih =>
    simp only [hasSubstr, Bool.or_eq_true, List.isPrefixOf_iff_prefix, ih,
      List.infix_cons_iff]

lemma hasSubstr_mono_take (s n : CStr) (k : Nat)
    (h : hasSubstr (s.take k) n = true) : hasSubstr s n = true := by
  rw [hasSubstr_iff_occurs] at h ⊢
  exact h.trans (List.take_prefix k s).isInfix

lemma hasSubstr_append_left (s a b : CStr)
    (h : hasSubstr s (a ++ b) = true) : hasSubstr s a = true := by
  rw [hasSubstr_iff_occurs] at h ⊢
  exact ((List.prefix_append a b).isInfix).trans h

lemma hasSubstr_nonspace_of_blank (c : Char) (l : CStr) (hn : isSpaceC c = false) :
    ∀ s : CStr, is_string_empty s = true → hasSubstr s (c :: l) = false := by
  intro s
  induction s with
  | nil => intro _; rfl
  | cons a t ih =>
    intro h
    have ha : isSpaceC a = true := by
      by_contra hc
      simp only [is_string_empty, Bool.not_eq_true] at h hc
      rw [hc] at h
      simp at h
    have ht : is_string_empty t = true := by
      simpa [is_string_empty, ha] using h
    have hca : (c == a) = false := by
      by_contra hc
      have : c = a := by
        have := eq_of_beq (a := c) (b := a) (by simpa using hc)
        exact this
      rw [this] at hn
      rw [ha] at hn
      exact Bool.noConfusion hn
    simp only [hasSubstr, List.isPrefixOf, hca, Bool.false_and, Bool.false_or]
    exact ih ht

lemma blank_no_wpa (s : CStr) (h : is_string_empty s = true) :
    hasSubstr s "WPA".data = false :=
  hasSubstr_nonspace_of_blank 'W' ['P', 'A'] (by decide) s h

lemma blank_no_wep (s : CStr) (h : is_string_empty s = true) :
    hasSubstr s "WEP".data = false :=
  hasSubstr_nonspace_of_blank 'W' ['E', 'P'] (by decide) s h

/-- C2: for every password and security string of the matching class,
`validate_password` accepts exactly the documented length ranges: a security
string containing "WPA" accepts iff the password length is 8..63, and a
security string containing "WEP" (and not "WPA", which takes precedence in
the code) accepts iff the length is 5, 13, 16 or 29. -/
theorem validate_password_length_ranges (p s : CStr) :
    (hasSubstr s "WPA".data = true →
      (validate_password (some p) (some s) = true ↔ 8 ≤ p.length ∧ p.length ≤ 63)) ∧
    (hasSubstr s "WEP".data = true → hasSubstr s "WPA".data = false →
      (validate_password (some p) (some s) = true ↔
        p.length = 5 ∨ p.length = 13 ∨ p.length = 16 ∨ p.length = 29)) := by
  constructor
  · intro h
    have hne : is_string_empty s = false := by
      by_contra hc
      simp only [Bool.not_eq_false] at hc
      rw [blank_no_wpa s hc] at h
      exact Bool.noConfusion h
    simp [validate_password, hne, h]
  · intro h hw
    have hne : is_string_empty s = false := by
      by_contra hc
      simp only [Bool.not_eq_false] at hc
      rw [blank_no_wep s hc] at h
      exact Bool.noConfusion h
    simp [validate_password, hne, h, hw]

/-- Witness for C2 at concrete inputs: an 8-char WPA password is accepted,
a 5-char WEP password is accepted. -/
theorem validate_password_length_ranges_witness :
    validate_password (some "password".data) (some "WPA2".data) = true ∧
    validate_password (some "abcde".data) (some "WEP".data) = true := by
  constructor
  · exact ((validate_password_length_ranges "password".data "WPA2".data).1
      (by decide)).mpr (by decide)
  · exact ((validate_password_length_ranges "abcde".data "WEP".data).2
      (by decide) (by decide)).mpr (by decide)

/-- C6 counterexample: "psk timed out" contains "timed out" but is classified
as AuthFailed, not Timeout, because the auth-phrase group ("psk") is checked
first.  So classification of text containing "timed out" is not always
Timeout as the claim states. -/
theorem parse_nmcli_error_timed_out_counterexample :
    hasSubstr ("psk timed out".data.map toLowerC) "timed out".data = true ∧
    parse_nmcli_error (some "psk timed out".data) ≠ connection_error_t.CONN_ERROR_TIMEOUT ∧
    parse_nmcli_error (some "psk timed out".data) = connection_error_t.CONN_ERROR_AUTH_FAILED := by
  decide

/-- C6 (amended): classification is by case-insensitive substring matching
with the code's fixed precedence, applied to the first 511 bytes:
(1) input (≤ 511 bytes) whose lowercase form contains "authentication failed"
classifies AuthFailed; (2) input (≤ 511 bytes) containing "timed out" and none
of the earlier-checked phrases classifies Timeout; (3) input containing none
of the known phrases classifies Unknown; (4) classification is invariant
under letter-case changes. -/
theorem parse_nmcli_error_classification (s : CStr) :
    (s.length ≤ 511 →
      hasSubstr (s.map toLowerC) "authentication failed".data = true →
      parse_nmcli_error (some s) = connection_error_t.CONN_ERROR_AUTH_FAILED) ∧
    (s.length ≤ 511 →
      hasSubstr (s.map toLowerC) "timed out".data = true →
      hasSubstr (s.map toLowerC) "authentication".data = false →
      hasSubstr (s.map toLowerC) "invalid key".data = false →
      hasSubstr (s.map toLowerC) "wrong password".data = false →
      hasSubstr (s.map toLowerC) "psk".data = false →
      hasSubstr (s.map toLowerC) "no network".data = false →
      hasSubstr (s.map toLowerC) "not found".data = false →
      hasSubstr (s.map toLowerC) "unavailable".data = false →
      parse_nmcli_error (some s) = connection_error_t.CONN_ERROR_TIMEOUT) ∧
    ((∀ ph ∈ nmcliErrorPhrases, hasSubstr (s.map toLowerC) ph = false) →
      parse_nmcli_error (some s) = connection_error_t.CONN_ERROR_UNKNOWN) ∧
    (∀ t : CStr, s.map toLowerC = t.map toLowerC →
      parse_nmcli_error (some s) = parse_nmcli_error (some t)) := by
  refine ⟨?_, ?_, ?_, ?_⟩
  · intro hlen h
    have hcopy : safe_string_copy s 512 = s := by
      simp only [safe_string_copy]
      exact List.take_of_length_le (by omega)
    have hauth : hasSubstr (s.map toLowerC) "authentication".data = true := by
      have : "authentication failed".data = "authentication".data ++ " failed".data := by decide
      rw [this] at h
      exact hasSubstr_append_left _ _ _ h
    simp [parse_nmcli_error, hcopy, hauth]
  · intro hlen h h1 h2 h3 h4 h5 h6 h7
    have hcopy : safe_string_copy s 512 = s := by
      simp only [safe_string_copy]
      exact List.take_of_length_le (by omega)
    simp [parse_nmcli_error, hcopy, h, h1, h2, h3, h4, h5, h6, h7]
  · intro h
    have key : ∀ ph : CStr, hasSubstr (s.map toLowerC) ph = false →
        hasSubstr ((safe_string_copy s 512).map toLowerC) ph = false := by
      intro ph hp
      simp only [safe_string_copy, List.map_take]
      by_contra hc
      simp only [Bool.not_eq_false] at hc
      rw [hasSubstr_mono_take _ _ _ hc] at hp
      exact Bool.noConfusion hp
    have k01 := key _ (h "authentication".data (by decide))
    have k02 := key _ (h "invalid key".data (by decide))
    have k03 := key _ (h "wrong password".data (by decide))
    have k04 := key _ (h "psk".data (by decide))
    have k05 := key _ (h "no network".data (by decide))
    have k06 := key _ (h "not found".data (by decide))
    have k07 := key _ (h "unavailable".data (by decide))
    have k08 := key _ (h "timeout".data (by decide))
    have k09 := key _ (h "timed out".data (by decide))
    have k10 := key _ (h "permission denied".data (by decide))
    have k11 := key _ (h "not authorized".data (by decide))
    have k12 := key _ (h "wifi".data (by decide))
    have k13 := key _ (h "networkmanager".data (by decide))
    have k14 := key _ (h "nm-".data (by decide))
    have k15 := key _ (h "dhcp".data (by decide))
    have k16 := key _ (h "ip address".data (by decide))
    simp [parse_nmcli_error, k01, k02, k03, k04, k05, k06, k07, k08, k09, k10,
      k11, k12, k13, k14, k15, k16]
  · intro t ht
    have : (safe_string_copy s 512).map toLowerC = (safe_string_copy t 512).map toLowerC := by
      simp only [safe_string_copy, List.map_take, ht]
    simp only [parse_nmcli_error, this]

/-- Witness for the amended C6 at concrete inputs: "Authentication Failed"
classifies AuthFailed, "Connection timed out" classifies Timeout, and
"total mystery" classifies Unknown. -/
theorem parse_nmcli_error_classification_witness :
    parse_nmcli_error (some "Authentication Failed".data) =
      connection_error_t.CONN_ERROR_AUTH_FAILED ∧
    parse_nmcli_error (some "Connection timed out".data) =
      connection_error_t.CONN_ERROR_TIMEOUT ∧
    parse_nmcli_error (some "total mystery".data) =
      connection_error_t.CONN_ERROR_UNKNOWN := by
  refine ⟨?_, ?_, ?_⟩
  · exact (parse_nmcli_error_classification "Authentication Failed".data).1
      (by decide) (by decide)
  · exact (parse_nmcli_error_classification "Connection timed out".data).2.1
      (by decide) (by decide) (by decide) (by decide) (by decide) (by decide)
      (by decide) (by decide) (by decide)
  · exact (parse_nmcli_error_classification "total mystery".data).2.2.1
      (by decide)

/-- C9: every scan line whose security field is empty (two adjacent colons)
parses successfully with security exactly "Open", and
`network_requires_password` on that parsed value is false. -/
theorem parse_network_line_empty_security (a b : CStr) (ha : ∀ c ∈ a, c ≠ ':') :
    ∃ info : network_info_t,
      parse_network_line (some (a ++ ':' :: ':' :: b)) = Except.ok info ∧
      info.security = "Open".data ∧
      network_requires_password (some info.security) = false := by
  have h1 : strchrIdx (a ++ ':' :: ':' :: b) ':' = some a.length :=
    strchrIdx_append_first a (':' :: b) ':' ha
  have hdrop : (a ++ ':' :: ':' :: b).drop (a.length + 1) = ':' :: b := by
    have hsplit : a ++ ':' :: ':' :: b = (a ++ [':']) ++ ':' :: b := by simp
    have hlen : (a ++ [':']).length = a.length + 1 := by simp
    rw [hsplit, ← hlen, List.drop_left]
  have h2 : strchrIdx (':' :: b) ':' = some 0 := by simp [strchrIdx]
  have htrim : trim_trailing_whitespace "Open".data = "Open".data := by decide
  refine ⟨{ ssid := trim_trailing_whitespace
              ((a ++ ':' :: ':' :: b).take (if a.length ≥ 33 then 32 else a.length)),
            security := "Open".data,
            signal := trim_trailing_whitespace (safe_string_copy b 33) },
          ?_, rfl,
          by show network_requires_password (some "Open".data) = false; decide⟩
  simp [parse_network_line, h1, hdrop, h2, htrim]

/-- Witness for C9 at the spec's concrete scenario: SSID "POCO F4" with an
empty security field parses to security "Open" with no password required. -/
theorem parse_network_line_empty_security_witness :
    ∃ info : network_info_t,
      parse_network_line (some "POCO F4::90".data) = Except.ok info ∧
      info.security = "Open".data ∧
      network_requires_password (some info.security) = false := by
  have h := parse_network_line_empty_security "POCO F4".data "90".data (by decide)
  simpa using h

lemma escCost_nil : escCost [] = 0 := rfl

lemma escCost_cons (c : Char) (rest : CStr) :
    escCost (c :: rest) = (if c = quoteC then 4 else 1) + escCost rest := by
  simp [escCost]

lemma shell_escape_loop_some_eq (size : Nat) (l : CStr) :
    ∀ (acc : CStr) (pos : Nat) (out : CStr),
      shell_escape_loop size l acc pos = some out →
      out = acc ++ (l.map escChar).flatten ++ [quoteC] := by
  induction l with
  | nil =>
    intro acc pos out h
    simp only [shell_escape_loop] at h
    split at h
    · exact absurd h (by simp)
    · simp only [Option.some.injEq] at h
      simp [← h]
  | cons c rest ih =>
    intro acc pos out h
    simp only [shell_escape_loop] at h
    by_cases hc : c = quoteC
    · rw [if_pos hc] at h
      split at h
      · exact absurd h (by simp)
      · have hout := ih _ _ _ h
        simp [hout, hc, escChar, List.append_assoc]
    · rw [if_neg hc] at h
      split at h
      · exact absurd h (by simp)
      · have hout := ih _ _ _ h
        simp [hout, escChar, hc, List.append_assoc]

lemma shell_escape_loop_isSome_iff (size : Nat) (l : CStr) :
    ∀ (pos : Nat) (acc : CStr),
      (shell_escape_loop size l acc pos).isSome = true ↔ pos + escCost l + 2 ≤ size := by
  induction l with
  | nil =>
    intro pos acc
    simp only [shell_escape_loop, escCost_nil]
    split
    · next hge => simp only [Option.isSome_none, Bool.false_eq_true, false_iff]; omega
    · next hlt => simp only [Option.isSome_some, true_iff]; omega
  | cons c rest ih =>
    intro pos acc
    simp only [shell_escape_loop, escCost_cons]
    by_cases hc : c = quoteC
    · rw [if_pos hc, if_pos hc]
      split
      · next hge => simp only [Option.isSome_none, Bool.false_eq_true, false_iff]; omega
      · next hlt => rw [ih]; omega
    · rw [if_neg hc, if_neg hc]
      split
      · next hge => simp only [Option.isSome_none, Bool.false_eq_true, false_iff]; omega
      · next hlt => rw [ih]; omega

lemma flatten_map_escChar_length (s : CStr) :
    ((s.map escChar).flatten).length = escCost s := by
  induction s with
  | nil => rfl
  | cons c t ih =>
    by_cases hc : c = quoteC <;>
      simp [escChar, hc, escCost_cons, ih] <;> omega

lemma shellEscapeSpec_length (s : CStr) :
    (shellEscapeSpec s).length = escCost s + 2 := by
  simp only [shellEscapeSpec, List.length_cons, List.length_append,
    flatten_map_escChar_length, List.length_nil]

lemma shell_escape_eq_some (s : CStr) (size : Nat) (out : CStr)
    (h : shell_escape (some s) size = some out) : out = shellEscapeSpec s := by
  simp only [shell_escape] at h
  split at h
  · exact absurd h (by simp)
  · split at h
    · exact absurd h (by simp)
    · have hout := shell_escape_loop_some_eq size s _ _ _ h
      simpa [shellEscapeSpec] using hout

lemma shell_escape_isSome_iff (s : CStr) (size : Nat) :
    (shell_escape (some s) size).isSome = true ↔
      (shellEscapeSpec s).length + 1 ≤ size := by
  simp only [shell_escape]
  split
  · next hlt =>
    simp only [Option.isSome_none, Bool.false_eq_true, false_iff]
    rw [shellEscapeSpec_length]
    omega
  · next hge =>
    split
    · next h2 => exact absurd h2 (by omega)
    · rw [shell_escape_loop_isSome_iff, shellEscapeSpec_length]
      omega

lemma escCost_le (s : CStr) : escCost s ≤ 4 * s.length := by
  induction s with
  | nil => simp [escCost_nil]
  | cons c t ih =>
    rw [escCost_cons]
    split <;> simp [List.length_cons] <;> omega

lemma statusReadSsid_is_connected (wl : Option (List CStr)) (s : connection_status_t) :
    (statusReadSsid wl s).is_connected = s.is_connected := by
  unfold statusReadSsid
  cases h : s.is_connected
  · simp [h]
  · rcases wl with _ | wl
    · simp [h]
    · rcases hf : findActiveSsid wl with _ | ss <;> simp [h, hf]

lemma statusReadSsid_kernel (wl : Option (List CStr)) (s : connection_status_t) :
    (statusReadSsid wl s).kernel_associated = s.kernel_associated := by
  unfold statusReadSsid
  cases h : s.is_connected
  · simp [h]
  · rcases wl with _ | wl
    · simp [h]
    · rcases hf : findActiveSsid wl with _ | ss <;> simp [h, hf]

lemma statusReadSsid_zombie (wl : Option (List CStr)) (s : connection_status_t) :
    (statusReadSsid wl s).is_zombie = s.is_zombie := by
  unfold statusReadSsid
  cases h : s.is_connected
  · simp [h]
  · rcases wl with _ | wl
    · simp [h]
    · rcases hf : findActiveSsid wl with _ | ss <;> simp [h, hf]

lemma statusReadIp_is_connected (ip : Option (Option CStr)) (s : connection_status_t) :
    (statusReadIp ip s).is_connected = s.is_connected := by
  unfold statusReadIp
  cases h : s.is_connected
  · simp [h]
  · rcases ip with _ | ip
    · simp [h]
    · rcases ip with _ | line <;> simp [h]

lemma statusReadIp_kernel (ip : Option (Option CStr)) (s : connection_status_t) :
    (statusReadIp ip s).kernel_associated = s.kernel_associated := by
  unfold statusReadIp
  cases h : s.is_connected
  · simp [h]
  · rcases ip with _ | ip
    · simp [h]
    · rcases ip with _ | line <;> simp [h]

lemma statusReadIp_zombie (ip : Option (Option CStr)) (s : connection_status_t) :
    (statusReadIp ip s).is_zombie = s.is_zombie := by
  unfold statusReadIp
  cases h : s.is_connected
  · simp [h]
  · rcases ip with _ | ip
    · simp [h]
    · rcases ip with _ | line <;> simp [h]

lemma statusBase_kernel (env : StatusEnv) (lines : List CStr) :
    (statusBase env lines).kernel_associated = obsKernelAssociated env := by
  unfold statusBase
  cases hk : obsKernelAssociated env <;>
    rcases hs : env.iwSsid with _ | ks <;>
    simp [hk, hs]

lemma statusBase_is_connected (env : StatusEnv) (lines : List CStr) :
    (statusBase env lines).is_connected = (findActiveWifi lines).isSome := by
  unfold statusBase
  cases hk : obsKernelAssociated env <;>
    rcases hs : env.iwSsid with _ | ks <;>
    rcases hfw : findActiveWifi lines with _ | name <;>
    simp [hk, hs, hfw, emptyStatus, statusReadIp_is_connected, statusReadSsid_is_connected]

lemma statusBase_zombie (env : StatusEnv) (lines : List CStr) :
    (statusBase env lines).is_zombie =
      (obsKernelAssociated env && !(findActiveWifi lines).isSome) := by
  unfold statusBase
  cases hk : obsKernelAssociated env <;>
    rcases hs : env.iwSsid with _ | ks <;>
    rcases hfw : findActiveWifi lines with _ | name <;>
    simp [hk, hs, hfw, emptyStatus, statusReadIp_is_connected, statusReadSsid_is_connected]

lemma statusRecovered_invariant (env : StatusEnv) (s : connection_status_t)
    (hk : s.kernel_associated = true) (hc : s.is_connected = false)
    (hz : s.is_zombie = true) :
    (statusRecovered env s).is_zombie =
      ((statusRecovered env s).kernel_associated &&
       !(statusRecovered env s).is_connected) := by
  unfold statusRecovered
  rcases h2 : env.nmActive2 with _ | lines2
  · simp [statusReadIp_zombie, statusReadSsid_zombie, statusReadIp_kernel,
      statusReadSsid_kernel, statusReadIp_is_connected, statusReadSsid_is_connected,
      hk, hc, hz]
  · rcases hf : findActiveWifi lines2 with _ | name
    · simp [hf, statusReadIp_zombie, statusReadSsid_zombie, statusReadIp_kernel,
        statusReadSsid_kernel, statusReadIp_is_connected, statusReadSsid_is_connected,
        hk, hc, hz]
    · simp [hf, statusReadIp_zombie, statusReadSsid_zombie, statusReadIp_kernel,
        statusReadSsid_kernel, statusReadIp_is_connected, statusReadSsid_is_connected,
        hk]

/-- C1: the reconciled view returned by `get_connection_status` always
satisfies `is_zombie = kernel_associated && !is_connected`, and whenever the
manager query stream opened, recovery-invocation (which records that the
computed zombie flag was true) equals exactly
`kernel-associated && !manager-connected` over the observed booleans. -/
theorem get_connection_status_zombie_flag (env : StatusEnv) :
    ((get_connection_status env).status.is_zombie =
      ((get_connection_status env).status.kernel_associated &&
       !(get_connection_status env).status.is_connected)) ∧
    (∀ lines : List CStr, env.nmActive = some lines →
      (get_connection_status env).recoverInvoked =
        (obsKernelAssociated env && !obsManagerConnected env)) := by
  constructor
  · unfold get_connection_status
    rcases hnm : env.nmActive with _ | lines
    · simp [emptyStatus]
    · cases hz : (statusBase env lines).is_zombie
      · simp only [hz, Bool.false_eq_true, if_false]
        rw [statusBase_kernel, statusBase_is_connected]
        rw [statusBase_zombie] at hz
        rw [← hz]
      · have hzz := hz
        rw [statusBase_zombie, Bool.and_eq_true] at hzz
        have hk : (statusBase env lines).kernel_associated = true := by
          rw [statusBase_kernel]; exact hzz.1
        have hc : (statusBase env lines).is_connected = false := by
          rw [statusBase_is_connected]
          simpa using hzz.2
        cases hrec : env.recoverOk
        · simp only [hz, if_true, hrec, Bool.false_eq_true, if_false]
          rw [hk, hc]
          rfl
        · simp only [hz, if_true, hrec]
          exact statusRecovered_invariant env _ hk hc hz
  · intro lines hnm
    unfold get_connection_status obsManagerConnected
    rw [hnm]
    cases hz : (statusBase env lines).is_zombie
    · simp only [hz, Bool.false_eq_true, if_false]
      rw [← statusBase_zombie env lines, hz]
    · simp only [hz, if_true]
      rw [← statusBase_zombie env lines, hz]

/-- Witness for C1 at a concrete zombie environment. -/
def iwLinkYes : IwEnv :=
  ⟨true, true, ["Connected to aa:bb:cc:dd:ee:ff (on wlan0)".data]⟩

/-- A link-layer query environment reporting no association. -/
def iwLinkNo : IwEnv := ⟨true, true, ["Not connected.".data]⟩

/-- A status environment where the kernel is associated but the manager
reports no active wifi profile (zombie), and recovery succeeds. -/
def zombieStatusEnv : StatusEnv :=
  ⟨some [], none, none, iwLinkYes, some "HomeNet".data, true,
   some ["HomeNet:802-11-wireless:wlan0".data], some ["yes:HomeNet".data],
   some (some "IP4.ADDRESS[1]:192.168.1.5/24".data)⟩

/-- A status environment where the kernel and the manager agree (connected). -/
def syncStatusEnv : StatusEnv :=
  ⟨some ["HomeNet:802-11-wireless:wlan0".data], some ["yes:HomeNet".data],
   some none, iwLinkYes, some "HomeNet".data, false, none, none, none⟩

/-- A status environment whose manager query stream fails to open. -/
def nmFailStatusEnv : StatusEnv :=
  ⟨none, none, none, iwLinkYes, none, false, none, none, none⟩

/-- A status environment whose link-layer query is unavailable. -/
def iwFailStatusEnv : StatusEnv :=
  ⟨some ["HomeNet:802-11-wireless:wlan0".data], some ["yes:HomeNet".data],
   some none, ⟨false, false, []⟩, none, false, none, none, none⟩

/-- A cleanup environment where the kernel and the manager agree. -/
def syncCleanupEnv : CleanupEnv :=
  ⟨some "wlan0".data, iwLinkYes, some ["HomeNet:802-11-wireless:wlan0".data],
   false, false, false, iwLinkYes, false, false, iwLinkNo⟩

theorem get_connection_status_zombie_flag_witness :
    (get_connection_status zombieStatusEnv).recoverInvoked =
      (obsKernelAssociated zombieStatusEnv && !obsManagerConnected zombieStatusEnv) :=
  (get_connection_status_zombie_flag zombieStatusEnv).2 [] rfl

lemma iw_check_association_fail (e : IwEnv)
    (h : (iw_check_association e).1 ≠ wterm_result_t.WTERM_SUCCESS) :
    (iw_check_association e).2 = false := by
  unfold iw_check_association at h ⊢
  cases ha : e.available <;> cases hp : e.popenOk <;> simp [ha, hp] at h ⊢

/-- C3: the managed-toggle recovery is reached only on zombie paths: if the
observed pair (kernel-associated, manager-connected) does not satisfy the
zombie condition, `get_connection_status` never invokes
`recover_from_zombie_connection`, and `cleanup_zombie_before_connect` never
reaches its inline managed-off/managed-on sequence. -/
theorem recovery_only_when_zombie (env : StatusEnv) (cenv : CleanupEnv) :
    ((obsKernelAssociated env && !obsManagerConnected env) = false →
      (get_connection_status env).recoverInvoked = false) ∧
    ((cleanupKernelAssoc cenv && !cleanupNmConnected cenv) = false →
      (cleanup_zombie_before_connect cenv).toggleInvoked = false) := by
  constructor
  · intro h
    unfold get_connection_status
    rcases hnm : env.nmActive with _ | lines
    · simp
    · have hz : (statusBase env lines).is_zombie = false := by
        rw [statusBase_zombie]
        unfold obsManagerConnected at h
        rw [hnm] at h
        exact h
      simp [hz]
  · intro h
    unfold cleanup_zombie_before_connect
    cases hk : cleanupKernelAssoc cenv
    · simp [hk]
    · have hnm : cleanupNmConnected cenv = true := by
        cases hcn : cleanupNmConnected cenv
        · rw [hk, hcn] at h; simp at h
        · rfl
      have hisc : (match cenv.nmActive with
          | none => (none : Option CStr)
          | some lines => findActiveWifi lines).isSome = true := by
        unfold cleanupNmConnected at hnm
        rcases hna : cenv.nmActive with _ | lines
        · rw [hna] at hnm; simp at hnm
        · rw [hna] at hnm; simpa using hnm
      simp [hk, hisc]

theorem recovery_only_when_zombie_witness :
    (get_connection_status syncStatusEnv).recoverInvoked = false ∧
    (cleanup_zombie_before_connect syncCleanupEnv).toggleInvoked = false :=
  ⟨(recovery_only_when_zombie syncStatusEnv syncCleanupEnv).1 (by decide),
   (recovery_only_when_zombie syncStatusEnv syncCleanupEnv).2 (by decide)⟩

/-- C8: status querying degrades failed sources to defaults and always
returns a status value (the return type has no error alternative): a failed
manager query returns the zero status, and a failed link-layer query leaves
`kernel_associated` (and hence `is_zombie`) false. -/
theorem get_connection_status_total_degrades (env : StatusEnv) :
    (env.nmActive = none → (get_connection_status env).status = emptyStatus) ∧
    ((iw_check_association env.iwAssoc).1 ≠ wterm_result_t.WTERM_SUCCESS →
      (get_connection_status env).status.kernel_associated = false ∧
      (get_connection_status env).status.is_zombie = false) := by
  constructor
  · intro h
    unfold get_connection_status
    rw [h]
  · intro h
    have hk : obsKernelAssociated env = false := by
      unfold obsKernelAssociated
      exact iw_check_association_fail _ h
    unfold get_connection_status
    rcases hnm : env.nmActive with _ | lines
    · simp [emptyStatus]
    · have hz : (statusBase env lines).is_zombie = false := by
        rw [statusBase_zombie, hk]
        rfl
      constructor
      · simp only [hz, Bool.false_eq_true, if_false, statusBase_kernel]
        exact hk
      · simp [hz]

theorem get_connection_status_total_degrades_witness :
    (get_connection_status nmFailStatusEnv).status = emptyStatus ∧
    ((get_connection_status iwFailStatusEnv).status.kernel_associated = false ∧
     (get_connection_status iwFailStatusEnv).status.is_zombie = false) :=
  ⟨(get_connection_status_total_degrades nmFailStatusEnv).1 rfl,
   (get_connection_status_total_degrades iwFailStatusEnv).2 (by decide)⟩

lemma pollLoop_success_iff (ssid : CStr) (env : ConnectEnv) :
    ∀ (fuel i : Nat),
      ((pollLoop ssid env i fuel).result = wterm_result_t.WTERM_SUCCESS ∧
       (pollLoop ssid env i fuel).connected = true) ↔
      (∃ k, k < fuel ∧ (∀ j, j < k → pollNeutralAt ssid env (i + j)) ∧
        (env.obs (i + k)).cancelled = false ∧
        (nmSuccessAt ssid (env.obs (i + k)) = true ∨
         iwFallbackAt ssid (env.obs (i + k)) = true)) := by
  intro fuel
  induction fuel with
  | zero =>
    intro i
    constructor
    · intro h
      exfalso
      have h1 := h.1
      unfold pollLoop connectTimeoutResult at h1
      split at h1 <;> simp [emptyResult] at h1
    · rintro ⟨k, hk, _⟩
      exact absurd hk (Nat.not_lt_zero k)
  | succ fuel ih =>
    intro i
    cases hc : (env.obs i).cancelled
    case true =>
      simp only [pollLoop, hc, if_true]
      constructor
      · intro h
        exact absurd h.1 (by simp [cancelledResult, emptyResult])
      · rintro ⟨k, hk, hneut, hcanc, hsucc⟩
        exfalso
        cases k with
        | zero =>
          rw [Nat.add_zero, hc] at hcanc
          exact Bool.noConfusion hcanc
        | succ k' =>
          have hn := (hneut 0 (Nat.succ_pos k')).1
          rw [Nat.add_zero, hc] at hn
          exact Bool.noConfusion hn
    case false =>
      cases hnm : nmSuccessAt ssid (env.obs i)
      case true =>
        simp only [pollLoop, hc, hnm, Bool.false_eq_true, if_false, if_true]
        constructor
        · intro _
          exact ⟨0, Nat.succ_pos fuel, fun j hj => absurd hj (Nat.not_lt_zero j),
            by rw [Nat.add_zero]; exact hc,
            Or.inl (by rw [Nat.add_zero]; exact hnm)⟩
        · intro _
          exact ⟨rfl, rfl⟩
      case false =>
        cases hiw : iwFallbackAt ssid (env.obs i)
        case true =>
          simp only [pollLoop, hc, hnm, hiw, Bool.false_eq_true, if_false, if_true]
          constructor
          · intro _
            exact ⟨0, Nat.succ_pos fuel, fun j hj => absurd hj (Nat.not_lt_zero j),
              by rw [Nat.add_zero]; exact hc,
              Or.inr (by rw [Nat.add_zero]; exact hiw)⟩
          · intro _
            exact ⟨rfl, rfl⟩
        case false =>
          cases hf : failedAt ssid (env.obs i)
          case true =>
            simp only [pollLoop, hc, hnm, hiw, hf, Bool.false_eq_true, if_false, if_true]
            constructor
            · intro h
              exact absurd h.1 (by simp [deactivatedResult, emptyResult])
            · rintro ⟨k, hk, hneut, hcanc, hsucc⟩
              exfalso
              cases k with
              | zero =>
                rw [Nat.add_zero] at hsucc
                rcases hsucc with h | h
                · rw [hnm] at h; exact Bool.noConfusion h
                · rw [hiw] at h; exact Bool.noConfusion h
              | succ k' =>
                have hn := (hneut 0 (Nat.succ_pos k')).2.2.2
                rw [Nat.add_zero, hf] at hn
                exact Bool.noConfusion hn
          case false =>
            simp only [pollLoop, hc, hnm, hiw, hf, Bool.false_eq_true, if_false]
            rw [ih (i + 1)]
            constructor
            · rintro ⟨k, hk, hneut, hcanc, hsucc⟩
              refine ⟨k + 1, by omega, ?_, ?_, ?_⟩
              · intro j hj
                cases j with
                | zero =>
                  rw [Nat.add_zero]
                  exact ⟨hc, hnm, hiw, hf⟩
                | succ j' =>
                  have hn := hneut j' (by omega)
                  rw [show i + 1 + j' = i + (j' + 1) from by omega] at hn
                  exact hn
              · rw [show i + (k + 1) = i + 1 + k from by omega]
                exact hcanc
              · rw [show i + (k + 1) = i + 1 + k from by omega]
                exact hsucc
            · rintro ⟨k, hk, hneut, hcanc, hsucc⟩
              cases k with
              | zero =>
                exfalso
                rw [Nat.add_zero] at hsucc
                rcases hsucc with h | h
                · rw [hnm] at h; exact Bool.noConfusion h
                · rw [hiw] at h; exact Bool.noConfusion h
              | succ k' =>
                refine ⟨k', by omega, ?_, ?_, ?_⟩
                · intro j hj
                  have hn := hneut (j + 1) (by omega)
                  rw [show i + (j + 1) = i + 1 + j from by omega] at hn
                  exact hn
                · rw [show i + 1 + k' = i + (k' + 1) from by omega]
                  exact hcanc
                · rw [show i + 1 + k' = i + (k' + 1) from by omega]
                  exact hsucc

/-- C4: the connect driver's polling loop returns WTERM_SUCCESS with
`connected = true` iff, at some reached poll (all earlier iterations
neutral, this one not cancelled), the manager reports an active connection
whose SSID equals the target, or the kernel reports association to the
target and the interface has an IP address. -/
theorem execute_nmcli_connect_success_iff (ssid : CStr) (env : ConnectEnv) :
    ((execute_nmcli_connect ssid env).result = wterm_result_t.WTERM_SUCCESS ∧
     (execute_nmcli_connect ssid env).connected = true) ↔
    (env.popenOk = true ∧ env.preCancelled = false ∧
     ∃ i, i < 13 ∧ (∀ j, j < i → pollNeutralAt ssid env j) ∧
       (env.obs i).cancelled = false ∧
       (nmSuccessAt ssid (env.obs i) = true ∨
        iwFallbackAt ssid (env.obs i) = true)) := by
  unfold execute_nmcli_connect
  cases hp : env.popenOk
  case false =>
    simp only [hp, Bool.not_false, if_true]
    constructor
    · intro h
      exact absurd h.1 (by simp [emptyResult])
    · rintro ⟨h, _⟩
      exact Bool.noConfusion h
  case true =>
    cases hpre : env.preCancelled
    case true =>
      simp only [hp, Bool.not_true, Bool.false_eq_true, if_false, hpre, if_true]
      constructor
      · intro h
        exact absurd h.1 (by simp [cancelledResult, emptyResult])
      · rintro ⟨_, h, _⟩
        exact Bool.noConfusion h
    case false =>
      simp only [hp, Bool.not_true, Bool.false_eq_true, if_false, hpre]
      rw [pollLoop_success_iff]
      constructor
      · rintro ⟨k, hk, hneut, hcanc, hsucc⟩
        exact ⟨trivial, trivial, k, hk, by simpa using hneut, by simpa using hcanc,
          by simpa using hsucc⟩
      · rintro ⟨_, _, k, hk, hneut, hcanc, hsucc⟩
        exact ⟨k, hk, by simpa using hneut, by simpa using hcanc,
          by simpa using hsucc⟩

lemma pollLoop_cancelled (ssid : CStr) (env : ConnectEnv) :
    ∀ (fuel i k : Nat), k < fuel →
      (∀ j, j < k → pollNeutralAt ssid env (i + j)) →
      (env.obs (i + k)).cancelled = true →
      pollLoop ssid env i fuel = cancelledResult := by
  intro fuel
  induction fuel with
  | zero =>
    intro i k hk
    exact absurd hk (Nat.not_lt_zero k)
  | succ fuel ih =>
    intro i k hk hneut hcanc
    cases k with
    | zero =>
      rw [Nat.add_zero] at hcanc
      simp [pollLoop, hcanc]
    | succ k' =>
      obtain ⟨h1, h2, h3, h4⟩ := by
        have hn := hneut 0 (Nat.succ_pos k')
        rw [Nat.add_zero] at hn
        exact hn
      simp only [pollLoop, h1, h2, h3, h4, Bool.false_eq_true, if_false]
      refine ih (i + 1) k' (by omega) ?_ ?_
      · intro j hj
        have hn := hneut (j + 1) (by omega)
        rw [show i + (j + 1) = i + 1 + j from by omega] at hn
        exact hn
      · rw [show i + 1 + k' = i + (k' + 1) from by omega]
        exact hcanc

/-- C5: cancellation is cooperative and prompt.  If the flag is set during
the initial wait the driver returns Cancelled before polling; and for every
reached polling iteration (all earlier iterations neutral), if the flag is
observed set at its top-of-iteration check the driver stops polling and
returns WTERM_ERROR_CANCELLED with `connected` still unset (false). -/
theorem execute_nmcli_connect_cancelled (ssid : CStr) (env : ConnectEnv)
    (hp : env.popenOk = true) :
    (env.preCancelled = true → execute_nmcli_connect ssid env = cancelledResult) ∧
    (∀ i, i < 13 → (∀ j, j < i → pollNeutralAt ssid env j) →
      (env.obs i).cancelled = true →
      (execute_nmcli_connect ssid env).result = wterm_result_t.WTERM_ERROR_CANCELLED ∧
      (execute_nmcli_connect ssid env).connected = false) := by
  constructor
  · intro hpre
    unfold execute_nmcli_connect
    simp [hp, hpre]
  · intro i hi hneut hcanc
    unfold execute_nmcli_connect
    cases hpre : env.preCancelled
    case true =>
      simp [hp, hpre, cancelledResult, emptyResult]
    case false =>
      simp only [hp, Bool.not_true, Bool.false_eq_true, if_false, hpre]
      rw [pollLoop_cancelled ssid env 13 0 i hi (by simpa using hneut)
        (by simpa using hcanc)]
      exact ⟨rfl, rfl⟩

/-- A poll observation at which nothing happens: manager idle, kernel not
associated, no IP, profile query stream failed. -/
def neutralPollObs : PollObs :=
  ⟨false, ⟨some [], none, none, iwLinkNo, none, false, none, none, none⟩,
   none, none, none⟩

/-- A poll observation at which the manager reports connection to HomeNet. -/
def successPollObs : PollObs :=
  ⟨false, syncStatusEnv, none, none, none⟩

/-- The neutral observation with the cancellation flag set. -/
def cancelPollObs : PollObs :=
  { neutralPollObs with cancelled := true }

/-- A connect environment that succeeds at the third poll. -/
def successConnectEnv : ConnectEnv :=
  ⟨true, 0, [], false, fun n => if n = 2 then successPollObs else neutralPollObs⟩

/-- A connect environment whose cancellation flag appears at the second
poll. -/
def cancelConnectEnv : ConnectEnv :=
  ⟨true, 0, [], false, fun n => if n = 1 then cancelPollObs else neutralPollObs⟩

theorem execute_nmcli_connect_success_iff_witness :
    (execute_nmcli_connect "HomeNet".data successConnectEnv).result =
      wterm_result_t.WTERM_SUCCESS ∧
    (execute_nmcli_connect "HomeNet".data successConnectEnv).connected = true :=
  (execute_nmcli_connect_success_iff "HomeNet".data successConnectEnv).mpr
    ⟨rfl, rfl, 2, by omega, by decide, by decide, Or.inl (by decide)⟩

theorem execute_nmcli_connect_cancelled_witness :
    (execute_nmcli_connect "HomeNet".data cancelConnectEnv).result =
      wterm_result_t.WTERM_ERROR_CANCELLED ∧
    (execute_nmcli_connect "HomeNet".data cancelConnectEnv).connected = false :=
  (execute_nmcli_connect_cancelled "HomeNet".data cancelConnectEnv rfl).2
    1 (by omega) (by decide) (by decide)

lemma pollLoop_not_invalid (ssid : CStr) (env : ConnectEnv) :
    ∀ (fuel i : Nat),
      (pollLoop ssid env i fuel).result ≠ wterm_result_t.WTERM_ERROR_INVALID_INPUT := by
  intro fuel
  induction fuel with
  | zero =>
    intro i h
    unfold pollLoop connectTimeoutResult at h
    split at h <;> simp [emptyResult] at h
  | succ fuel ih =>
    intro i h
    cases hc : (env.obs i).cancelled
    case true =>
      simp only [pollLoop, hc, if_true] at h
      simp [cancelledResult, emptyResult] at h
    case false =>
      cases hnm : nmSuccessAt ssid (env.obs i)
      case true =>
        simp only [pollLoop, hc, hnm, Bool.false_eq_true, if_false, if_true] at h
        simp [successResult, emptyResult] at h
      case false =>
        cases hiw : iwFallbackAt ssid (env.obs i)
        case true =>
          simp only [pollLoop, hc, hnm, hiw, Bool.false_eq_true, if_false, if_true] at h
          simp [successResult, emptyResult] at h
        case false =>
          cases hf : failedAt ssid (env.obs i)
          case true =>
            simp only [pollLoop, hc, hnm, hiw, hf, Bool.false_eq_true, if_false,
              if_true] at h
            simp [deactivatedResult, emptyResult] at h
          case false =>
            simp only [pollLoop, hc, hnm, hiw, hf, Bool.false_eq_true, if_false] at h
            exact ih (i + 1) h

lemma execute_nmcli_connect_not_invalid (ssid : CStr) (env : ConnectEnv) :
    (execute_nmcli_connect ssid env).result ≠
      wterm_result_t.WTERM_ERROR_INVALID_INPUT := by
  unfold execute_nmcli_connect
  cases hp : env.popenOk
  case false =>
    intro h
    simp [hp, emptyResult] at h
  case true =>
    cases hpre : env.preCancelled
    case true =>
      intro h
      simp [hp, hpre, cancelledResult, emptyResult] at h
    case false =>
      simp only [hp, Bool.not_true, Bool.false_eq_true, if_false, hpre]
      exact pollLoop_not_invalid ssid env 13 0

lemma validate_ssid_length_le (s : CStr) (h : validate_ssid (some s) = true) :
    s.length ≤ 32 := by
  by_contra hc
  simp only [validate_ssid] at h
  rw [if_pos (Or.inr (by omega))] at h
  exact Bool.noConfusion h

lemma shell_escape_ssid_fits (s : CStr) (h : validate_ssid (some s) = true) :
    (shell_escape (some s) 256).isSome = true := by
  rw [shell_escape_isSome_iff, shellEscapeSpec_length]
  have h1 := validate_ssid_length_le s h
  have h2 := escCost_le s
  omega

lemma validate_ssid_accepts (s : CStr) (h1 : 1 ≤ s.length) (h2 : s.length ≤ 32)
    (h3 : ∀ c ∈ s, c ≠ Char.ofNat 0) : validate_ssid (some s) = true := by
  have hA : ¬(s.length = 0 ∨ s.length > 32) := by omega
  have hB : s.any (fun c => c = Char.ofNat 0) = false := by
    rw [List.any_eq_false]
    intro c hc
    simpa using h3 c hc
  simp [validate_ssid, hA, hB]
  constructor
  · intro he
    rw [he] at h1
    simp at h1
  · exact h2

lemma connect_open_spec (ssid : Option CStr) (env : EntryEnv) :
    ((connect_to_open_network ssid env).result.result =
        wterm_result_t.WTERM_ERROR_INVALID_INPUT ↔ ssidRejected ssid = true) ∧
    ((connect_to_open_network ssid env).result.result =
        wterm_result_t.WTERM_ERROR_INVALID_INPUT →
      (connect_to_open_network ssid env).issuedCmd = none) := by
  rcases ssid with _ | s
  · refine ⟨?_, fun _ => rfl⟩
    simp [connect_to_open_network, ssidRejected, invalidResult, emptyResult]
  · by_cases h1 : is_string_empty s = true
    · have ho : connect_to_open_network (some s) env =
          ⟨invalidResult "Invalid SSID provided".data, none⟩ := by
        simp [connect_to_open_network, h1]
      rw [ho]
      exact ⟨iff_of_true rfl (by simp [ssidRejected, h1]), fun _ => rfl⟩
    · have h1' : is_string_empty s = false := by simpa using h1
      cases h2 : validate_ssid (some s)
      · have ho : connect_to_open_network (some s) env =
            ⟨invalidResult "SSID contains invalid characters or length".data, none⟩ := by
          simp [connect_to_open_network, h1', h2]
        rw [ho]
        exact ⟨iff_of_true rfl (by simp [ssidRejected, h1', h2]), fun _ => rfl⟩
      ·
        have hrej : ssidRejected (some s) = false := by
          simp [ssidRejected, h1', h2]
        have hfit := shell_escape_ssid_fits s h2
        rcases hesc : shell_escape (some s) 256 with _ | esc
        · rw [hesc] at hfit
          exact absurd hfit (by simp)
        · by_cases hcu : (cleanup_zombie_before_connect env.cleanupEnv).result =
              wterm_result_t.WTERM_SUCCESS
          · by_cases hce : connection_exists env.connExists (some s) = true
            · have ho : connect_to_open_network (some s) env =
                  ⟨execute_nmcli_connect s env.connectEnv,
                   some (("nmcli connection up ".data ++ esc ++ " 2>&1".data).take 511)⟩ := by
                simp [connect_to_open_network, h1', h2, hesc, hcu, hce]
              rw [ho]
              exact ⟨iff_of_false (execute_nmcli_connect_not_invalid s env.connectEnv)
                  (by rw [hrej]; simp),
                fun h => absurd h (execute_nmcli_connect_not_invalid s env.connectEnv)⟩
            · have ho : connect_to_open_network (some s) env =
                  ⟨execute_nmcli_connect s env.connectEnv,
                   some (("nmcli device wifi connect ".data ++ esc ++ " 2>&1".data).take 511)⟩ := by
                simp [connect_to_open_network, h1', h2, hesc, hcu, hce]
              rw [ho]
              exact ⟨iff_of_false (execute_nmcli_connect_not_invalid s env.connectEnv)
                  (by rw [hrej]; simp),
                fun h => absurd h (execute_nmcli_connect_not_invalid s env.connectEnv)⟩
          · have ho : connect_to_open_network (some s) env = ⟨cleanupFailedResult, none⟩ := by
              simp [connect_to_open_network, h1', h2, hesc, hcu]
            rw [ho]
            exact ⟨iff_of_false (by simp [cleanupFailedResult, emptyResult])
                (by rw [hrej]; simp),
              fun _ => rfl⟩

lemma connect_secured_spec (ssid password : Option CStr) (env : EntryEnv) :
    ((connect_to_secured_network ssid password env).result.result =
        wterm_result_t.WTERM_ERROR_INVALID_INPUT ↔
      (ssidRejected ssid = true ∨
        (ssidRejected ssid = false ∧
         (cleanup_zombie_before_connect env.cleanupEnv).result =
           wterm_result_t.WTERM_SUCCESS ∧
         connection_exists env.connExists ssid = false ∧
         passwordRejected password = true))) ∧
    ((connect_to_secured_network ssid password env).result.result =
        wterm_result_t.WTERM_ERROR_INVALID_INPUT →
      (connect_to_secured_network ssid password env).issuedCmd = none) := by
  rcases ssid with _ | s
  · refine ⟨?_, fun _ => rfl⟩
    exact iff_of_true rfl (Or.inl rfl)
  · by_cases h1 : is_string_empty s = true
    · have ho : connect_to_secured_network (some s) password env =
          ⟨invalidResult "Invalid SSID provided".data, none⟩ := by
        simp [connect_to_secured_network, h1]
      rw [ho]
      exact ⟨iff_of_true rfl (Or.inl (by simp [ssidRejected, h1])), fun _ => rfl⟩
    · have h1' : is_string_empty s = false := by simpa using h1
      cases h2 : validate_ssid (some s)
      · have ho : connect_to_secured_network (some s) password env =
            ⟨invalidResult "SSID contains invalid characters or length".data, none⟩ := by
          simp [connect_to_secured_network, h1', h2]
        rw [ho]
        exact ⟨iff_of_true rfl (Or.inl (by simp [ssidRejected, h1', h2])), fun _ => rfl⟩
      · have hrej : ssidRejected (some s) = false := by
          simp [ssidRejected, h1', h2]
        have hfit := shell_escape_ssid_fits s h2
        rcases hesc : shell_escape (some s) 256 with _ | esc
        · rw [hesc] at hfit
          exact absurd hfit (by simp)
        · by_cases hcu : (cleanup_zombie_before_connect env.cleanupEnv).result =
              wterm_result_t.WTERM_SUCCESS
          · by_cases hce : connection_exists env.connExists (some s) = true
            · have ho : connect_to_secured_network (some s) password env =
                  ⟨execute_nmcli_connect s env.connectEnv,
                   some (("nmcli connection up ".data ++ esc ++ " 2>&1".data).take 1023)⟩ := by
                simp [connect_to_secured_network, h1', h2, hesc, hcu, hce]
              rw [ho]
              refine ⟨iff_of_false (execute_nmcli_connect_not_invalid s env.connectEnv) ?_,
                fun h => absurd h (execute_nmcli_connect_not_invalid s env.connectEnv)⟩
              rintro (h | ⟨_, _, hcf, _⟩)
              · rw [hrej] at h
                exact Bool.noConfusion h
              · rw [hce] at hcf
                exact Bool.noConfusion hcf
            · have hceF : connection_exists env.connExists (some s) = false := by
                simpa using hce
              rcases password with _ | p
              · have ho : connect_to_secured_network (some s) none env =
                    ⟨invalidResult "Password required for secured network".data, none⟩ := by
                  simp [connect_to_secured_network, h1', h2, hesc, hcu, hce]
                rw [ho]
                exact ⟨iff_of_true rfl (Or.inr ⟨hrej, hcu, hceF, rfl⟩), fun _ => rfl⟩
              · by_cases hp1 : is_string_empty p = true
                · have ho : connect_to_secured_network (some s) (some p) env =
                      ⟨invalidResult "Password required for secured network".data, none⟩ := by
                    simp [connect_to_secured_network, h1', h2, hesc, hcu, hce, hp1]
                  rw [ho]
                  exact ⟨iff_of_true rfl
                    (Or.inr ⟨hrej, hcu, hceF, by simp [passwordRejected, hp1]⟩),
                    fun _ => rfl⟩
                · have hp1' : is_string_empty p = false := by simpa using hp1
                  rcases hpe : shell_escape (some p) 512 with _ | escp
                  · have ho : connect_to_secured_network (some s) (some p) env =
                        ⟨invalidResult "Password too long for shell escaping".data, none⟩ := by
                      simp [connect_to_secured_network, h1', h2, hesc, hcu, hce, hp1', hpe]
                    rw [ho]
                    exact ⟨iff_of_true rfl
                      (Or.inr ⟨hrej, hcu, hceF, by simp [passwordRejected, hp1', hpe]⟩),
                      fun _ => rfl⟩
                  · have ho : connect_to_secured_network (some s) (some p) env =
                        ⟨execute_nmcli_connect s env.connectEnv,
                         some (("nmcli device wifi connect ".data ++ esc ++ " password ".data ++
                                escp ++ " 2>&1".data).take 1023)⟩ := by
                      simp [connect_to_secured_network, h1', h2, hesc, hcu, hce, hp1', hpe]
                    rw [ho]
                    refine ⟨iff_of_false (execute_nmcli_connect_not_invalid s env.connectEnv) ?_,
                      fun h => absurd h (execute_nmcli_connect_not_invalid s env.connectEnv)⟩
                    rintro (h | ⟨_, _, _, hpr⟩)
                    · rw [hrej] at h
                      exact Bool.noConfusion h
                    · rw [show passwordRejected (some p) = false from by
                        simp [passwordRejected, hp1', hpe]] at hpr
                      exact Bool.noConfusion hpr
          · have ho : connect_to_secured_network (some s) password env =
                ⟨cleanupFailedResult, none⟩ := by
              simp [connect_to_secured_network, h1', h2, hesc, hcu]
            rw [ho]
            refine ⟨iff_of_false (by simp [cleanupFailedResult, emptyResult]) ?_,
              fun _ => rfl⟩
            rintro (h | ⟨_, hcs, _⟩)
            · rw [hrej] at h
              exact Bool.noConfusion h
            · exact absurd hcs hcu

/-- C7 (amended): each connect entry point returns InvalidInput without
issuing any connect command exactly when the SSID is null, blank (empty or
all-whitespace), or fails `validate_ssid` (longer than 32 bytes) — and, for
secured connects that get past cleanup with no saved profile, also when the
password is null, blank, or not escapable into 512 bytes; every SSID of 1-32
bytes (without NUL bytes) is accepted by the validation step. -/
theorem connect_entry_points_invalid_input (ssid password : Option CStr)
    (env : EntryEnv) :
    ((connect_to_open_network ssid env).result.result =
        wterm_result_t.WTERM_ERROR_INVALID_INPUT ↔ ssidRejected ssid = true) ∧
    ((connect_to_open_network ssid env).result.result =
        wterm_result_t.WTERM_ERROR_INVALID_INPUT →
      (connect_to_open_network ssid env).issuedCmd = none) ∧
    ((connect_to_secured_network ssid password env).result.result =
        wterm_result_t.WTERM_ERROR_INVALID_INPUT ↔
      (ssidRejected ssid = true ∨
        (ssidRejected ssid = false ∧
         (cleanup_zombie_before_connect env.cleanupEnv).result =
           wterm_result_t.WTERM_SUCCESS ∧
         connection_exists env.connExists ssid = false ∧
         passwordRejected password = true))) ∧
    ((connect_to_secured_network ssid password env).result.result =
        wterm_result_t.WTERM_ERROR_INVALID_INPUT →
      (connect_to_secured_network ssid password env).issuedCmd = none) ∧
    (∀ s : CStr, 1 ≤ s.length → s.length ≤ 32 → (∀ c ∈ s, c ≠ Char.ofNat 0) →
      validate_ssid (some s) = true) :=
  ⟨(connect_open_spec ssid env).1, (connect_open_spec ssid env).2,
   (connect_secured_spec ssid password env).1,
   (connect_secured_spec ssid password env).2,
   validate_ssid_accepts⟩

/-- An entry environment with a healthy (non-zombie) cleanup view, no saved
connections, and a connect environment that succeeds at the third poll. -/
def sampleEntryEnv : EntryEnv := ⟨none, syncCleanupEnv, successConnectEnv⟩

/-- C7 counterexample: the single-space SSID has length 1 (within the
claimed 1-32 byte acceptance range) yet `connect_to_open_network` returns
InvalidInput, because the code's `is_string_empty` check also rejects
whitespace-only SSIDs. -/
theorem connect_open_whitespace_ssid_counterexample :
    (" ".data).length = 1 ∧
    (connect_to_open_network (some " ".data) sampleEntryEnv).result.result =
      wterm_result_t.WTERM_ERROR_INVALID_INPUT := by
  decide

theorem connect_entry_points_invalid_input_witness :
    (connect_to_open_network (some " ".data) sampleEntryEnv).result.result =
      wterm_result_t.WTERM_ERROR_INVALID_INPUT ∧
    (connect_to_secured_network (some "HomeNet".data) none sampleEntryEnv).result.result =
      wterm_result_t.WTERM_ERROR_INVALID_INPUT ∧
    validate_ssid (some "HomeNet".data) = true :=
  ⟨(connect_entry_points_invalid_input (some " ".data) none sampleEntryEnv).1.mpr
     (by decide),
   (connect_entry_points_invalid_input (some "HomeNet".data) none sampleEntryEnv).2.2.1.mpr
     (Or.inr (by decide)),
   (connect_entry_points_invalid_input none none sampleEntryEnv).2.2.2.2
     "HomeNet".data (by decide) (by decide) (by decide)⟩

lemma connect_open_issued (ssid : Option CStr) (env : EntryEnv) (cmd : CStr)
    (h : (connect_to_open_network ssid env).issuedCmd = some cmd) :
    ∃ sv esc, ssid = some sv ∧ shell_escape (some sv) 256 = some esc ∧
      (cmd = ("nmcli connection up ".data ++ esc ++ " 2>&1".data).take 511 ∨
       cmd = ("nmcli device wifi connect ".data ++ esc ++ " 2>&1".data).take 511) := by
  rcases ssid with _ | s
  · exact absurd h (by simp [connect_to_open_network])
  · by_cases h1 : is_string_empty s = true
    · rw [show connect_to_open_network (some s) env =
          ⟨invalidResult "Invalid SSID provided".data, none⟩ from by
        simp [connect_to_open_network, h1]] at h
      exact absurd h (by simp)
    · have h1' : is_string_empty s = false := by simpa using h1
      cases h2 : validate_ssid (some s)
      · rw [show connect_to_open_network (some s) env =
            ⟨invalidResult "SSID contains invalid characters or length".data, none⟩ from by
          simp [connect_to_open_network, h1', h2]] at h
        exact absurd h (by simp)
      · rcases hesc : shell_escape (some s) 256 with _ | esc
        · rw [show connect_to_open_network (some s) env =
              ⟨invalidResult "SSID too long for shell escaping".data, none⟩ from by
            simp [connect_to_open_network, h1', h2, hesc]] at h
          exact absurd h (by simp)
        · by_cases hcu : (cleanup_zombie_before_connect env.cleanupEnv).result =
              wterm_result_t.WTERM_SUCCESS
          · by_cases hce : connection_exists env.connExists (some s) = true
            · rw [show connect_to_open_network (some s) env =
                  ⟨execute_nmcli_connect s env.connectEnv,
                   some (("nmcli connection up ".data ++ esc ++ " 2>&1".data).take 511)⟩ from by
                simp [connect_to_open_network, h1', h2, hesc, hcu, hce]] at h
              exact ⟨s, esc, rfl, hesc, Or.inl (Option.some.inj h).symm⟩
            · rw [show connect_to_open_network (some s) env =
                  ⟨execute_nmcli_connect s env.connectEnv,
                   some (("nmcli device wifi connect ".data ++ esc ++ " 2>&1".data).take 511)⟩ from by
                simp [connect_to_open_network, h1', h2, hesc, hcu, hce]] at h
              exact ⟨s, esc, rfl, hesc, Or.inr (Option.some.inj h).symm⟩
          · rw [show connect_to_open_network (some s) env =
                ⟨cleanupFailedResult, none⟩ from by
              simp [connect_to_open_network, h1', h2, hesc, hcu]] at h
            exact absurd h (by simp)

lemma connect_secured_issued (ssid password : Option CStr) (env : EntryEnv)
    (cmd : CStr)
    (h : (connect_to_secured_network ssid password env).issuedCmd = some cmd) :
    ∃ sv esc, ssid = some sv ∧ shell_escape (some sv) 256 = some esc ∧
      (cmd = ("nmcli connection up ".data ++ esc ++ " 2>&1".data).take 1023 ∨
       ∃ pv escp, password = some pv ∧ shell_escape (some pv) 512 = some escp ∧
         cmd = ("nmcli device wifi connect ".data ++ esc ++ " password ".data ++
                escp ++ " 2>&1".data).take 1023) := by
  rcases ssid with _ | s
  · exact absurd h (by simp [connect_to_secured_network])
  · by_cases h1 : is_string_empty s = true
    · rw [show connect_to_secured_network (some s) password env =
          ⟨invalidResult "Invalid SSID provided".data, none⟩ from by
        simp [connect_to_secured_network, h1]] at h
      exact absurd h (by simp)
    · have h1' : is_string_empty s = false := by simpa using h1
      cases h2 : validate_ssid (some s)
      · rw [show connect_to_secured_network (some s) password env =
            ⟨invalidResult "SSID contains invalid characters or length".data, none⟩ from by
          simp [connect_to_secured_network, h1', h2]] at h
        exact absurd h (by simp)
      · rcases hesc : shell_escape (some s) 256 with _ | esc
        · rw [show connect_to_secured_network (some s) password env =
              ⟨invalidResult "SSID too long for shell escaping".data, none⟩ from by
            simp [connect_to_secured_network, h1', h2, hesc]] at h
          exact absurd h (by simp)
        · by_cases hcu : (cleanup_zombie_before_connect env.cleanupEnv).result =
              wterm_result_t.WTERM_SUCCESS
          · by_cases hce : connection_exists env.connExists (some s) = true
            · rw [show connect_to_secured_network (some s) password env =
                  ⟨execute_nmcli_connect s env.connectEnv,
                   some (("nmcli connection up ".data ++ esc ++ " 2>&1".data).take 1023)⟩ from by
                simp [connect_to_secured_network, h1', h2, hesc, hcu, hce]] at h
              exact ⟨s, esc, rfl, hesc, Or.inl (Option.some.inj h).symm⟩
            · rcases password with _ | p
              · rw [show connect_to_secured_network (some s) none env =
                    ⟨invalidResult "Password required for secured network".data, none⟩ from by
                  simp [connect_to_secured_network, h1', h2, hesc, hcu, hce]] at h
                exact absurd h (by simp)
              · by_cases hp1 : is_string_empty p = true
                · rw [show connect_to_secured_network (some s) (some p) env =
                      ⟨invalidResult "Password required for secured network".data, none⟩ from by
                    simp [connect_to_secured_network, h1', h2, hesc, hcu, hce, hp1]] at h
                  exact absurd h (by simp)
                · have hp1' : is_string_empty p = false := by simpa using hp1
                  rcases hpe : shell_escape (some p) 512 with _ | escp
                  · rw [show connect_to_secured_network (some s) (some p) env =
                        ⟨invalidResult "Password too long for shell escaping".data, none⟩ from by
                      simp [connect_to_secured_network, h1', h2, hesc, hcu, hce, hp1', hpe]] at h
                    exact absurd h (by simp)
                  · rw [show connect_to_secured_network (some s) (some p) env =
                        ⟨execute_nmcli_connect s env.connectEnv,
                         some (("nmcli device wifi connect ".data ++ esc ++ " password ".data ++
                                escp ++ " 2>&1".data).take 1023)⟩ from by
                      simp [connect_to_secured_network, h1', h2, hesc, hcu, hce, hp1', hpe]] at h
                    exact ⟨s, esc, rfl, hesc,
                      Or.inr ⟨p, escp, rfl, hpe, (Option.some.inj h).symm⟩⟩
          · rw [show connect_to_secured_network (some s) password env =
                ⟨cleanupFailedResult, none⟩ from by
              simp [connect_to_secured_network, h1', h2, hesc, hcu]] at h
            exact absurd h (by simp)

/-- C10: `shell_escape` either succeeds producing exactly the input wrapped
in single quotes with every embedded single quote replaced by the sequence
quote-backslash-quote-quote (`shellEscapeSpec`), or fails; it fails whenever
the fully escaped string plus terminator does not fit in the buffer; and
every connect command either entry point issues embeds only the escaped
forms of the SSID and password in the code's command templates. -/
theorem shell_escape_exact (s : CStr) (size : Nat) :
    (∀ out : CStr, shell_escape (some s) size = some out → out = shellEscapeSpec s) ∧
    (size < (shellEscapeSpec s).length + 1 → shell_escape (some s) size = none) ∧
    (∀ (ssid : Option CStr) (env : EntryEnv) (cmd : CStr),
      (connect_to_open_network ssid env).issuedCmd = some cmd →
      ∃ sv esc, ssid = some sv ∧ shell_escape (some sv) 256 = some esc ∧
        (cmd = ("nmcli connection up ".data ++ esc ++ " 2>&1".data).take 511 ∨
         cmd = ("nmcli device wifi connect ".data ++ esc ++ " 2>&1".data).take 511)) ∧
    (∀ (ssid password : Option CStr) (env : EntryEnv) (cmd : CStr),
      (connect_to_secured_network ssid password env).issuedCmd = some cmd →
      ∃ sv esc, ssid = some sv ∧ shell_escape (some sv) 256 = some esc ∧
        (cmd = ("nmcli connection up ".data ++ esc ++ " 2>&1".data).take 1023 ∨
         ∃ pv escp, password = some pv ∧ shell_escape (some pv) 512 = some escp ∧
           cmd = ("nmcli device wifi connect ".data ++ esc ++ " password ".data ++
                  escp ++ " 2>&1".data).take 1023)) := by
  refine ⟨?_, ?_, ?_, ?_⟩
  · intro out h
    exact shell_escape_eq_some s size out h
  · intro hlt
    rcases hx : shell_escape (some s) size with _ | out
    · rfl
    · exfalso
      have hs : (shell_escape (some s) size).isSome = true := by rw [hx]; rfl
      rw [shell_escape_isSome_iff] at hs
      omega
  · intro ssid env cmd h
    exact connect_open_issued ssid env cmd h
  · intro ssid password env cmd h
    exact connect_secured_issued ssid password env cmd h

theorem shell_escape_exact_witness :
    shell_escape (some "a'b".data) 4 = none ∧
    shellEscapeSpec "a'b".data = shellEscapeSpec "a'b".data ∧
    (∃ sv esc, (some "Net".data : Option CStr) = some sv ∧
      shell_escape (some sv) 256 = some esc ∧
      ((("nmcli device wifi connect ".data ++ shellEscapeSpec "Net".data ++
          " 2>&1".data).take 511 : CStr) =
        ("nmcli connection up ".data ++ esc ++ " 2>&1".data).take 511 ∨
       (("nmcli device wifi connect ".data ++ shellEscapeSpec "Net".data ++
          " 2>&1".data).take 511 : CStr) =
        ("nmcli device wifi connect ".data ++ esc ++ " 2>&1".data).take 511)) :=
  ⟨(shell_escape_exact "a'b".data 4).2.1 (by decide),
   (shell_escape_exact "a'b".data 16).1 (shellEscapeSpec "a'b".data) (by decide),
   (shell_escape_exact [] 0).2.2.1 (some "Net".data) sampleEntryEnv
     (("nmcli device wifi connect ".data ++ shellEscapeSpec "Net".data ++
       " 2>&1".data).take 511) (by decide)⟩
